import Mathlib

/-!
Shallow embedding of the STS-get TCP service (src/server.js, src/lib.js and
the src/unnamed variants of the same module) and verification of the frozen
claims about its command dispatcher and three-stage MTA-STS policy pipeline.

JavaScript strings are modeled as Lean `String`s; single-character
`String.prototype.split` is re-implemented structurally (`splitChars`) so that
it matches JS semantics (splitting the empty string yields `[""]`, adjacent
separators yield empty fields) and reduces well in the kernel.  Promise
settlement is explicit: a pipeline stage either resolves, rejects with a
message, faults (a thrown exception, which the promise chain converts into a
rejection carrying the engine's message), or -- crucially -- fails to settle
at all (`Settle.noSettle`), which models the source's
`return Promise.reject(...)` inside a promise executor's callback: that
returns a fresh rejected promise from the callback instead of invoking the
executor's `reject`, leaving the outer promise forever pending.
-/

namespace STSGet

/-! JS-flavoured string primitives -/

/-- Characters matched by the whitespace forms used in the source
(`String.prototype.trim` and the regex `/\s/g`), restricted to ASCII. -/
def jsIsSpace (c : Char) : Bool :=
  c = ' ' || c = '\t' || c = '\n' || c = '\r' || c = '\x0b' || c = '\x0c'

/-- ASCII lower-casing, modelling `String.prototype.toLowerCase`. -/
def jsToLower (s : String) : String :=
  String.mk (s.data.map Char.toLower)

/-- ASCII upper-casing, modelling `String.prototype.toUpperCase`. -/
def jsToUpper (s : String) : String :=
  String.mk (s.data.map Char.toUpper)

/-- Remove leading and trailing whitespace, modelling `String.prototype.trim`. -/
def jsTrim (s : String) : String :=
  String.mk (((s.data.dropWhile jsIsSpace).reverse.dropWhile jsIsSpace).reverse)

/-- Remove every whitespace character, modelling `.replace(/\s/g, '')`. -/
def stripWs (s : String) : String :=
  String.mk (s.data.filter (fun c => !(jsIsSpace c)))

/-- Split a character list on a single separator character with JavaScript
`String.prototype.split` semantics: the result is always non-empty, the empty
list splits to `[[]]`, and adjacent separators produce empty fields. -/
def splitChars (sep : Char) : List Char → List (List Char)
  | [] => [[]]
  | c :: cs =>
    let r := splitChars sep cs
    if c = sep then [] :: r
    else (c :: r.headD []) :: r.tail

/-- JS `s.split(sep)` for a one-character separator. -/
def splitStr (sep : Char) (s : String) : List String :=
  (splitChars sep s.data).map String.mk

/-- JS `Array.prototype.join('')` on an array of strings. -/
def strJoin (l : List String) : String :=
  String.mk ((l.map String.data).flatten)

/-- Interleave a separator character between character-list fields (the
inverse of `splitChars` on separator-free fields). -/
def interChars (sep : Char) : List (List Char) → List Char
  | [] => []
  | [p] => p
  | p :: q :: ps => p ++ sep :: interChars sep (q :: ps)

/-- Build an attribute token `name=v1=...=vn` from its `=`-free parts. -/
def joinEqParts (parts : List String) : String :=
  String.mk (interChars '=' (parts.map String.data))

/-! Connections and the response writers of src/lib.js -/

/-- A client socket as the writers see it: all that matters is the
`destroyed` flag consulted by every liveness guard in the source. -/
structure Conn where
  destroyed : Bool
deriving DecidableEq

/-- The value of the JS expression `msg || 'error'` where `msg` is either a
string or absent (`none` models `undefined`/`null`); the empty string is
falsy in JavaScript. -/
def orError (msg : Option String) : String :=
  match msg with
  | none => "error"
  | some m => if m = "" then "error" else m

/-- Writes performed by `exports.send` of src/lib.js:
`if (conn && !conn.destroyed) conn.write(msg)`.  The result is the list of
strings written to the socket. -/
def send (conn : Option Conn) (msg : String) : List String :=
  match conn with
  | some c => if c.destroyed then [] else [msg]
  | none => []

/-- Writes performed by `exports.sendError` of src/lib.js:
writes a dash, the message (defaulted to the literal `error` when falsy) and
CRLF, under the same liveness guard as `send`. -/
def sendError (conn : Option Conn) (msg : Option String) : List String :=
  match conn with
  | some c => if c.destroyed then [] else ["-" ++ orError msg ++ "\r\n"]
  | none => []

/-! Stage 1: getTxt's dns.resolveTxt callback -/

/-- Outcome of `dns.resolveTxt`: either an error, or a two-dimensional array
of TXT record chunks (`string[][]`).  The error is carried as the string that
the source interpolates (`err.message`, or `err.code || err.message` in the
part_002 variant). -/
inductive DnsOutcome where
  | err (msg : String)
  | ok (data : List (List String))
deriving DecidableEq

/-- How the callback affects getTxt's promise: it calls the executor's
`resolve`, calls its `reject` with an error message, or returns without
settling the promise at all. -/
inductive Settle where
  | resolve (txt_rr : List (List String))
  | reject (msg : String)
  | noSettle
deriving DecidableEq

/-- The `dns.resolveTxt` callback of `getTxt` in src/server.js (lines
144-195).  On `err` it calls `reject(err)`, so the rejection carries the DNS
error's own message.  On an empty array or an array whose length is not 1 it
executes `return Promise.reject(new Error('EMPTY OR MISSING TXT RECORD'))`:
this returns a fresh rejected promise from the callback without ever calling
the executor's `reject`, so the outer promise is never settled
(`Settle.noSettle`).  Only a one-element result resolves (with `data.slice(0)`,
a copy of `data`). -/
def getTxtCallback : DnsOutcome → Settle
  | .err e => .reject e
  | .ok data =>
    if data.length = 0 then .noSettle
    else if data.length ≠ 1 then .noSettle
    else .resolve data

/-- The same callback in the src/unnamed/part_002 variant (lines 189-243):
identical except that the error branch wraps the DNS error as
`FAILED TXT LOOKUP; <err.code or err.message>`. -/
def getTxtCallbackV2 : DnsOutcome → Settle
  | .err e => .reject ("FAILED TXT LOOKUP; " ++ e)
  | .ok data =>
    if data.length = 0 then .noSettle
    else if data.length ≠ 1 then .noSettle
    else .resolve data

/-! Stage 2: validateTxt -/

/-- The fields `validateTxt` may add to the pipeline's `opts` object.
`v` models `'v' in opts` (the code only ever assigns `opts.v = 1`);
`idSet` models `'id' in opts` -- note that in JavaScript assigning
`undefined` to a property still creates it, so `idSet` can be true while
`idVal` is `none`. -/
structure StsOpts where
  v : Bool
  idSet : Bool
  idVal : Option String
deriving DecidableEq

/-- Result of one promise-chain stage: resolve, reject with an `Error`
message, or a thrown exception (`fault`) carrying the engine's message --
the promise chain converts a throw into a rejection with that message. -/
inductive StageResult (α : Type) where
  | resolve (val : α)
  | reject (msg : String)
  | fault (msg : String)
deriving DecidableEq

/-- One iteration of the attribute loop of `validateTxt` in src/server.js
(lines 215-236).  The source's sanity check `if (nv.length !== 2) { }` has an
empty body, so nothing is skipped: for a token without `=`, `nv[1]` is
`undefined`, and the `v` branch then throws a TypeError evaluating
`nv[1].toLowerCase()`, while the `id` branch assigns `opts.id = undefined`
(which still creates the property).  For a token with several `=` only
`nv[1]`, the part between the first and second `=`, is consulted. -/
def stepServer (st : StsOpts) (token : String) : StageResult StsOpts :=
  let nv := splitStr '=' token
  if jsToLower (nv.headD "") = "v" then
    match nv.get? 1 with
    | none => .fault "Cannot read properties of undefined (reading 'toLowerCase')"
    | some x => if jsToLower x = "stsv1" then .resolve { st with v := true } else .resolve st
  else if jsToLower (nv.headD "") = "id" then
    .resolve { st with idSet := true, idVal := nv.get? 1 }
  else .resolve st

/-- The attribute loop of src/server.js's `validateTxt`, short-circuiting on
a thrown exception. -/
def runTokensServer : List String → StsOpts → StageResult StsOpts
  | [], st => .resolve st
  | t :: ts, st =>
    match stepServer st t with
    | .resolve st' => runTokensServer ts st'
    | .reject m => .reject m
    | .fault m => .fault m

/-- The `validateTxt` stage of src/server.js (lines 197-247): reject
`EMPTY OR MISSING TXT RECORD` when `opts.txt_rr` is empty or when the joined
first chunk array is empty; otherwise strip whitespace, split on `;`, run the
attribute loop, and reject `INVALID TXT RR` unless both `'v' in opts` and
`'id' in opts` hold at the end. -/
def validateTxtServer (txt_rr : List (List String)) : StageResult StsOpts :=
  if txt_rr.length = 0 then .reject "EMPTY OR MISSING TXT RECORD"
  else
    let tmp := strJoin (txt_rr.headD [])
    if tmp = "" then .reject "EMPTY OR MISSING TXT RECORD"
    else
      match runTokensServer (splitStr ';' (stripWs tmp)) ⟨false, false, none⟩ with
      | .resolve st =>
        if !st.v || !st.idSet then .reject "INVALID TXT RR" else .resolve st
      | .reject m => .reject m
      | .fault m => .fault m

/-- One iteration of the attribute loop in the src/unnamed/part_002 variant
(lines 277-315).  A token with fewer than two `=`-parts is skipped
(`continue`); with more than two parts the source replaces `nv` by
`[ nv[0], nv.slice(1).join('') ]`, i.e. the value is the concatenation of all
parts after the name with the `=` separators removed -- for exactly two parts
that concatenation is just `nv[1]`, so both cases read
`strJoin (nv.drop 1)`. -/
def stepV2 (st : StsOpts) (token : String) : StsOpts :=
  let nv := splitStr '=' token
  if nv.length < 2 then st
  else
    let value := strJoin (nv.drop 1)
    if jsToLower (nv.headD "") = "v" then
      if jsToLower value = "stsv1" then { st with v := true } else st
    else if jsToLower (nv.headD "") = "id" then
      { st with idSet := true, idVal := some value }
    else st

/-- The `validateTxt` stage of the src/unnamed/part_002 variant (lines
245-337): as the src/server.js version, but with the completed token
handling of `stepV2` (no token can throw). -/
def validateTxtV2 (txt_rr : List (List String)) : StageResult StsOpts :=
  if txt_rr.length = 0 then .reject "EMPTY OR MISSING TXT RECORD"
  else
    let tmp := strJoin (txt_rr.headD [])
    if tmp = "" then .reject "EMPTY OR MISSING TXT RECORD"
    else
      let st := (splitStr ';' (stripWs tmp)).foldl stepV2 ⟨false, false, none⟩
      if !st.v || !st.idSet then .reject "INVALID TXT RR" else .resolve st

/-! Stage 3: getPolicy -/

/-- The part of an HTTP response object the source consults. -/
structure HttpRes where
  statusCode : Int
deriving DecidableEq

/-- Outcome of the `request(...)` call: a transport error (carrying
`err.message`), or a response (`none` models a lodash-empty `res`) together
with an optional body (`none` models an absent body). -/
inductive HttpOutcome where
  | err (msg : String)
  | ok (res : Option HttpRes) (body : Option String)
deriving DecidableEq

/-- The `request` callback of `getPolicy` in src/server.js (lines 266-292):
`if (err || _.isEmpty(res) || _.isEmpty(body))` rejects with
`HTTP LOOKUP FAILED; ${err.message}` -- but when that branch is entered
because `res` or `body` is empty while `err` is null, evaluating
`err.message` throws a TypeError instead; then a status code outside
[200, 300) rejects with `HTTP LOOKUP FAILED; <code>`, and otherwise the raw
(hence non-empty) body resolves. -/
def getPolicyCb : HttpOutcome → StageResult String
  | .err e => .reject ("HTTP LOOKUP FAILED; " ++ e)
  | .ok none _ => .fault "Cannot read properties of null (reading 'message')"
  | .ok (some _) none => .fault "Cannot read properties of null (reading 'message')"
  | .ok (some r) (some b) =>
    if b = "" then .fault "Cannot read properties of null (reading 'message')"
    else if r.statusCode < 200 ∨ 300 ≤ r.statusCode then
      .reject ("HTTP LOOKUP FAILED; " ++ toString r.statusCode)
    else .resolve b

/-- A run of the `getPolicy` stage: whether the HTTP GET was issued, and how
the stage's promise settles. -/
structure PolicyRun where
  httpCalled : Bool
  result : StageResult String
deriving DecidableEq

/-- The `getPolicy` stage of src/server.js (lines 249-292).  When the
originating connection is already destroyed the source executes
`return Promise.reject(new ERROR('CLIENT CONNECTION CLOSED'))`; `ERROR` is an
undefined identifier, so evaluating it throws
`ReferenceError: ERROR is not defined` before any promise or HTTP request is
created -- the promise chain turns this throw into a rejection carrying that
message.  Only on a live connection is the HTTP GET issued. -/
def getPolicyStage (connDestroyed : Bool) (out : HttpOutcome) : PolicyRun :=
  if connDestroyed then ⟨false, .fault "ERROR is not defined"⟩
  else ⟨true, getPolicyCb out⟩

/-! FQDN validation (third-party validator/lib/isFQDN, ASCII model) -/

/-- Characters admitted in a TLD label by validator's isFQDN regex
(ASCII part of the case-insensitive letter class). -/
def isTldChar (c : Char) : Bool := c.isAlpha

/-- Characters admitted in a non-TLD label (letters, digits, hyphen);
underscores are not admitted since the dispatcher passes
`allow_underscores: false`. -/
def isPartChar (c : Char) : Bool := c.isAlphanum || c = '-'

/-- The TLD test of validator's isFQDN: a label of at least two letters, or
`xn` followed by at least two letters/digits/hyphens (punycode).  Non-ASCII
letter ranges of the original regex are omitted; no claim depends on them. -/
def validTld (tld : String) : Bool :=
  let l := jsToLower tld
  (l.length ≥ 2 && l.data.all isTldChar)
    || (l.data.take 2 = ['x', 'n'] && (l.data.drop 2).length ≥ 2
          && (l.data.drop 2).all isPartChar)

/-- Test of each non-TLD label: non-empty, valid characters only, no leading
or trailing hyphen. -/
def validPart (p : String) : Bool :=
  !p.data.isEmpty && p.data.all isPartChar
    && p.data.headD '-' ≠ '-' && p.data.getLastD '-' ≠ '-'

/-- Model of `isFQDN(str, {require_tld: true, allow_underscores: false,
allow_trailing_dot: false})` from validator/lib/isFQDN as called by the
dispatcher: split on `.`, pop and check the TLD, require at least one
remaining label, and check every remaining label. -/
def isFQDN (str : String) : Bool :=
  let parts := splitStr '.' str
  validTld (parts.getLastD "") && !parts.dropLast.isEmpty
    && parts.dropLast.all validPart

/-! The command dispatcher (onConnData of src/server.js, lines 50-122) -/

/-- The version string replied to `VERSION`. -/
def version : String := "0.1"

/-- The whitespace-delimited tokens of one input line:
`data.trim().split(' ')`. -/
def cmdTokens (data : String) : List String :=
  splitStr ' ' (jsTrim data)

/-- The dispatched command name: `tokens[0].toUpperCase()`. -/
def cmdOf (data : String) : String :=
  jsToUpper ((cmdTokens data).headD "")

/-- The asynchronous environment one STS pipeline run sees: the DNS answer,
the HTTP answer, and the value of `conn.destroyed` at the two points where
the source consults it -- when `getPolicy` begins (Stage 3's precondition
check) and when the final `.then`/`.catch` handler delivers the reply.  A
QUIT processed while the pipeline is suspended makes these flags true. -/
structure Env where
  dns : DnsOutcome
  http : HttpOutcome
  destroyedAtStage3 : Bool
  destroyedAtDelivery : Bool

/-- The success handler of the STS promise chain:
`.then(function(str) { lib.send(conn, str); })` -- the body is forwarded to
`lib.send` verbatim, with nothing prepended or appended. -/
def deliverSuccess (destroyed : Bool) (body : String) : List String :=
  send (some ⟨destroyed⟩) body

/-- The failure handler of the STS promise chain:
`.catch(function(err) { if (!conn.destroyed) lib.sendError(conn, err.message); })`. -/
def deliverFailure (destroyed : Bool) (msg : String) : List String :=
  if destroyed then [] else sendError (some ⟨destroyed⟩) (some msg)

/-- The writes produced by one full run of the STS pipeline
`getTxt(opts).then(validateTxt).then(getPolicy).then(...).catch(...)` of
src/server.js under environment `env`.  When Stage 1's promise is never
settled (`Settle.noSettle`) no handler ever runs and nothing is written.
A `fault` from `validateTxtServer`, and the `ERROR is not defined` throw of
getPolicy's destroyed branch, happen synchronously inside `.then` handlers,
so the promise chain converts them to rejections that reach the `.catch`
handler.  A `fault` from `getPolicyCb`, however, is thrown inside the
asynchronous `request` callback, after getPolicy's promise executor has
already returned: it escapes the promise chain entirely, getPolicy's
promise never settles, and no reply is ever written.  The two cases are
told apart by `httpCalled`: a fault without an HTTP call is the
destroyed-branch handler throw, a fault with one is the request-callback
throw. -/
def runSts (env : Env) : List String :=
  match getTxtCallback env.dns with
  | .noSettle => []
  | .reject m => deliverFailure env.destroyedAtDelivery m
  | .resolve txt =>
    match validateTxtServer txt with
    | .reject m => deliverFailure env.destroyedAtDelivery m
    | .fault m => deliverFailure env.destroyedAtDelivery m
    | .resolve _ =>
      let pr := getPolicyStage env.destroyedAtStage3 env.http
      match pr.result with
      | .resolve body => deliverSuccess env.destroyedAtDelivery body
      | .reject m => deliverFailure env.destroyedAtDelivery m
      | .fault m =>
        if pr.httpCalled then [] else deliverFailure env.destroyedAtDelivery m

/-- The command dispatcher `onConnData` of src/server.js (lines 50-122): one
input line is trimmed, split on spaces, and routed on the upper-cased first
token.  `STS` validates its argument (`HOST MISSING` / `HOST INVALID`) and
otherwise runs the pipeline; `QUIT` replies a BYE line via `conn.end`;
`VERSION` replies the version line; anything else, including an empty line,
replies an UNKNOWN COMMAND error line.  The result is the list of writes to
the socket. -/
def onConnData (connDestroyed : Bool) (env : Env) (data : String) : List String :=
  if cmdOf data = "STS" then
    if (cmdTokens data).length < 2 then
      sendError (some ⟨connDestroyed⟩) (some "HOST MISSING")
    else if !isFQDN ((cmdTokens data).getD 1 "") then
      sendError (some ⟨connDestroyed⟩) (some "HOST INVALID")
    else runSts env
  else if cmdOf data = "QUIT" then
    (if connDestroyed then [] else ["+BYE\r\n"])
  else if cmdOf data = "VERSION" then
    send (some ⟨connDestroyed⟩) ("+" ++ version ++ "\r\n")
  else
    sendError (some ⟨connDestroyed⟩) (some "UNKNOWN COMMAND")

/-- An input line that reaches the pipeline: the command is `STS`, it has an
argument, and the argument passes FQDN validation. -/
def acceptedSts (data : String) : Bool :=
  cmdOf data = "STS" && (cmdTokens data).length ≥ 2
    && isFQDN ((cmdTokens data).getD 1 "")

/-! Concrete environments used by witnesses and counterexamples -/

/-- A live-connection environment whose DNS lookup returns two TXT records. -/
def envTwoRecords : Env :=
  ⟨.ok [["a"], ["b"]], .ok (some ⟨200⟩) (some "policy"), false, false⟩

/-- An environment destroyed at delivery time (QUIT completed while the
pipeline was suspended), with an otherwise successful resolution. -/
def envQuitRace : Env :=
  ⟨.ok [["v=STSv1;id=2019ABC"]], .ok (some ⟨200⟩) (some "policy"), false, true⟩

/-- A fully live, fully successful environment. -/
def envLiveOk : Env :=
  ⟨.ok [["v=STSv1;id=2019ABC"]], .ok (some ⟨200⟩) (some "policy"), false, false⟩

/-! Helper lemmas -/

/-- The failure handler on a live connection writes exactly one error line. -/
theorem deliverFailure_live (m : String) :
    deliverFailure false m = ["-" ++ orError (some m) ++ "\r\n"] := by
  simp [deliverFailure, sendError]

/-- The success handler on a live connection writes exactly the body. -/
theorem deliverSuccess_live (b : String) : deliverSuccess false b = [b] := rfl

/-- Stage 1's callback leaves the promise unsettled exactly for a non-error
DNS answer that does not contain exactly one record. -/
theorem getTxtCallback_noSettle_iff (d : DnsOutcome) :
    getTxtCallback d = .noSettle ↔ ∃ l, d = .ok l ∧ l.length ≠ 1 := by
  cases d with
  | err e => simp [getTxtCallback]
  | ok l =>
    by_cases h : l.length = 1
    · have h0 : l.length ≠ 0 := by omega
      simp [getTxtCallback, h, h0]
    · by_cases h0 : l.length = 0 <;> simp [getTxtCallback, h0, h]

/-- On a live connection, a full STS pipeline run writes at most one line,
and writes nothing exactly when a promise is left unsettled: either Stage
1's (non-error DNS answer without exactly one record) or Stage 3's (the
request callback faults -- the TypeError escapes the promise chain). -/
theorem runSts_live (env : Env) (hd : env.destroyedAtDelivery = false) :
    (runSts env).length ≤ 1 ∧
    (runSts env = [] ↔
      (getTxtCallback env.dns = .noSettle ∨
        ((∃ txt st, getTxtCallback env.dns = .resolve txt ∧
            validateTxtServer txt = .resolve st) ∧
          env.destroyedAtStage3 = false ∧
          ∃ m, getPolicyCb env.http = .fault m))) := by
  unfold runSts
  rcases hdns : getTxtCallback env.dns with txt | m | _ <;>
    simp [hdns, hd, deliverFailure_live, deliverSuccess_live]
  rcases hv : validateTxtServer txt with st | m | m <;>
    simp [hv, hd, deliverFailure_live, deliverSuccess_live]
  by_cases h3 : env.destroyedAtStage3 = true
  · simp [getPolicyStage, h3, hd, deliverFailure_live]
  · have h3' : env.destroyedAtStage3 = false := by
      cases hb : env.destroyedAtStage3 with
      | false => rfl
      | true => exact absurd hb h3
    rcases hp : getPolicyCb env.http with b | m | m <;>
      simp [getPolicyStage, h3', hp, hd, deliverFailure_live, deliverSuccess_live]

/-- Unfolding of the acceptance test for an STS line. -/
theorem acceptedSts_iff (data : String) :
    acceptedSts data = true ↔
      cmdOf data = "STS" ∧ 2 ≤ (cmdTokens data).length ∧
        isFQDN ((cmdTokens data).getD 1 "") = true := by
  simp [acceptedSts, Bool.and_eq_true, decide_eq_true_eq, ge_iff_le, and_assoc]

/-! Claim theorems -/

/-- Claim C1 (confirmed): whenever the connection has been destroyed by the
time a suspended STS pipeline resumes -- whether it resumes with the success
body or with any failure -- the delivery handlers write nothing to the
socket: `lib.send` is guarded by `conn.destroyed` and the catch handler
additionally checks `!conn.destroyed` before calling `lib.sendError`. -/
theorem sts_no_reply_after_destroy (env : Env) (h : env.destroyedAtDelivery = true) :
    runSts env = [] := by
  unfold runSts
  rcases hdns : getTxtCallback env.dns with txt | m | _ <;>
    simp [h, deliverFailure, deliverSuccess, send]
  rcases hv : validateTxtServer txt with o | m | m <;>
    simp [h, deliverFailure, deliverSuccess, send]
  by_cases h3 : env.destroyedAtStage3 = true
  · simp [getPolicyStage, h3, h, deliverFailure]
  · have h3' : env.destroyedAtStage3 = false := by
      cases hb : env.destroyedAtStage3 with
      | false => rfl
      | true => exact absurd hb h3
    rcases hp : getPolicyCb env.http with b | m | m <;>
      simp [getPolicyStage, h3', hp, h, deliverFailure, deliverSuccess, send]

/-- Witness for `sts_no_reply_after_destroy`: a QUIT completed while the
pipeline was suspended (connection destroyed at delivery time) yields no
write even though DNS and HTTP both succeeded. -/
theorem sts_no_reply_after_destroy_witness : runSts envQuitRace = [] :=
  sts_no_reply_after_destroy envQuitRace rfl

/-- Claim C2 counterexample: the claim says every non-single-record Stage 1
outcome terminates the pipeline with `EMPTY OR MISSING TXT RECORD`.  On a
two-record answer the src/server.js callback instead returns a fresh
rejected promise without settling getTxt's promise (`noSettle`), and on a
DNS lookup error it rejects with the DNS error's own message; neither is a
rejection with `EMPTY OR MISSING TXT RECORD`. -/
theorem getTxt_nonsingle_counterexample :
    getTxtCallback (.ok [["a"], ["b"]]) = .noSettle ∧
    getTxtCallback (.err "queryTxt ENODATA _mta-sts.example.com")
      = .reject "queryTxt ENODATA _mta-sts.example.com" ∧
    Settle.noSettle ≠ .reject "EMPTY OR MISSING TXT RECORD" ∧
    Settle.reject "queryTxt ENODATA _mta-sts.example.com"
      ≠ .reject "EMPTY OR MISSING TXT RECORD" :=
  ⟨by decide, rfl, by decide, by decide⟩

/-- Claim C2 (corrected): a DNS lookup error rejects Stage 1 with the lookup
error itself (src/server.js) or with a `FAILED TXT LOOKUP` wrapper
(part_002); an empty or multi-record answer never settles Stage 1's promise
at all; and the pipeline resolves only when the answer has exactly one
record, never choosing among several. -/
theorem getTxt_outcomes_amended :
    (∀ e, getTxtCallback (.err e) = .reject e) ∧
    (∀ e, getTxtCallbackV2 (.err e) = .reject ("FAILED TXT LOOKUP; " ++ e)) ∧
    (∀ data : List (List String), data.length ≠ 1 → getTxtCallback (.ok data) = .noSettle) ∧
    (∀ data : List (List String), data.length = 1 → getTxtCallback (.ok data) = .resolve data) := by
  refine ⟨fun e => rfl, fun e => rfl, ?_, ?_⟩
  · intro data h
    by_cases h0 : data.length = 0 <;> simp [getTxtCallback, h0, h]
  · intro data h
    have h0 : data.length ≠ 0 := by omega
    simp [getTxtCallback, h, h0]

/-- Witness for `getTxt_outcomes_amended` at concrete outcomes. -/
theorem getTxt_outcomes_amended_witness :
    getTxtCallback (.err "E") = .reject "E" ∧
    getTxtCallbackV2 (.err "E") = .reject "FAILED TXT LOOKUP; E" ∧
    getTxtCallback (.ok []) = .noSettle ∧
    getTxtCallback (.ok [["r"]]) = .resolve [["r"]] :=
  ⟨getTxt_outcomes_amended.1 "E", getTxt_outcomes_amended.2.1 "E",
   getTxt_outcomes_amended.2.2.1 [] (by decide),
   getTxt_outcomes_amended.2.2.2 [["r"]] (by decide)⟩

/-- Claim C3 counterexample: the claim says every input line yields exactly
one reply (barring the QUIT race).  On a live connection, the accepted
command `STS example.com` under a DNS answer with two TXT records yields no
reply at all, ever: Stage 1's promise is never settled, so neither the
`.then` nor the `.catch` handler runs. -/
theorem dispatcher_two_txt_no_reply :
    onConnData false envTwoRecords "STS example.com" = [] ∧
    (onConnData false envTwoRecords "STS example.com").length ≠ 1 :=
  ⟨by decide, by decide⟩

/-- Claim C3 (corrected): every input line produces at most one reply; a
line whose command token is none of STS, QUIT, VERSION -- including the
empty line -- produces exactly the UNKNOWN COMMAND error line without any
fault; and on a live connection no reply at all is produced exactly when an
accepted STS command hits one of the two unsettled-promise paths: its DNS
lookup returns a non-error answer without exactly one record (Stage 1's
promise is never settled), or DNS and TXT validation succeed and a live
Stage 3's request callback faults (empty response or empty/absent body with
a null transport error: the TypeError thrown evaluating `err.message`
escapes the promise chain, so getPolicy's promise never settles).  The STS
success reply is the raw policy body forwarded verbatim, so replies need
not begin with a plus or minus sign. -/
theorem dispatcher_reply_discipline_amended (env : Env) (data : String)
    (hd : env.destroyedAtDelivery = false) :
    (onConnData false env data).length ≤ 1 ∧
    (cmdOf data ≠ "STS" → cmdOf data ≠ "QUIT" → cmdOf data ≠ "VERSION" →
      onConnData false env data = ["-UNKNOWN COMMAND\r\n"]) ∧
    ((onConnData false env data = []) ↔
      (acceptedSts data = true ∧
        ((∃ d, env.dns = .ok d ∧ d.length ≠ 1) ∨
          ((∃ txt st, getTxtCallback env.dns = .resolve txt ∧
              validateTxtServer txt = .resolve st) ∧
            env.destroyedAtStage3 = false ∧
            ∃ m, getPolicyCb env.http = .fault m)))) := by
  by_cases hSts : cmdOf data = "STS"
  · by_cases hlen : (cmdTokens data).length < 2
    · have hws : onConnData false env data = ["-HOST MISSING\r\n"] := by
        unfold onConnData
        rw [if_pos hSts, if_pos hlen]
        rfl
      refine ⟨by rw [hws]; decide, fun h1 _ _ => absurd hSts h1, ?_⟩
      rw [hws]
      constructor
      · intro h; simp at h
      · rintro ⟨ha, -⟩
        rcases (acceptedSts_iff data).mp ha with ⟨-, hge, -⟩
        omega
    · by_cases hfq : isFQDN ((cmdTokens data).getD 1 "") = true
      · have hws : onConnData false env data = runSts env := by
          unfold onConnData
          rw [if_pos hSts, if_neg hlen, if_neg (by rw [hfq]; decide)]
        have hrun := runSts_live env hd
        have hacc : acceptedSts data = true :=
          (acceptedSts_iff data).mpr ⟨hSts, by omega, hfq⟩
        refine ⟨by rw [hws]; exact hrun.1, fun h1 _ _ => absurd hSts h1, ?_⟩
        rw [hws, hrun.2, getTxtCallback_noSettle_iff]
        simp [hacc]
      · have hfq' : isFQDN ((cmdTokens data).getD 1 "") = false := by
          cases hb : isFQDN ((cmdTokens data).getD 1 "") with
          | false => rfl
          | true => exact absurd hb hfq
        have hws : onConnData false env data = ["-HOST INVALID\r\n"] := by
          unfold onConnData
          rw [if_pos hSts, if_neg hlen, if_pos (by rw [hfq']; rfl)]
          rfl
        refine ⟨by rw [hws]; decide, fun h1 _ _ => absurd hSts h1, ?_⟩
        rw [hws]
        constructor
        · intro h; simp at h
        · rintro ⟨ha, -⟩
          rcases (acceptedSts_iff data).mp ha with ⟨-, -, hf⟩
          rw [hf] at hfq'
          exact absurd hfq' (by decide)
  · by_cases hQ : cmdOf data = "QUIT"
    · have hws : onConnData false env data = ["+BYE\r\n"] := by
        unfold onConnData
        rw [if_neg hSts, if_pos hQ]
        rfl
      refine ⟨by rw [hws]; decide, fun _ h2 _ => absurd hQ h2, ?_⟩
      rw [hws]
      constructor
      · intro h; simp at h
      · rintro ⟨ha, -⟩
        exact absurd ((acceptedSts_iff data).mp ha).1 hSts
    · by_cases hV : cmdOf data = "VERSION"
      · have hws : onConnData false env data = ["+0.1\r\n"] := by
          unfold onConnData
          rw [if_neg hSts, if_neg hQ, if_pos hV]
          rfl
        refine ⟨by rw [hws]; decide, fun _ _ h3 => absurd hV h3, ?_⟩
        rw [hws]
        constructor
        · intro h; simp at h
        · rintro ⟨ha, -⟩
          exact absurd ((acceptedSts_iff data).mp ha).1 hSts
      · have hws : onConnData false env data = ["-UNKNOWN COMMAND\r\n"] := by
          unfold onConnData
          rw [if_neg hSts, if_neg hQ, if_neg hV]
          rfl
        refine ⟨by rw [hws]; decide, fun _ _ _ => hws, ?_⟩
        rw [hws]
        constructor
        · intro h; simp at h
        · rintro ⟨ha, -⟩
          exact absurd ((acceptedSts_iff data).mp ha).1 hSts

/-- Witness for `dispatcher_reply_discipline_amended` on a live connection
and the concrete line `VERSION`. -/
theorem dispatcher_reply_discipline_witness :
    (onConnData false envLiveOk "VERSION").length ≤ 1 ∧
    (cmdOf "VERSION" ≠ "STS" → cmdOf "VERSION" ≠ "QUIT" → cmdOf "VERSION" ≠ "VERSION" →
      onConnData false envLiveOk "VERSION" = ["-UNKNOWN COMMAND\r\n"]) ∧
    ((onConnData false envLiveOk "VERSION" = []) ↔
      (acceptedSts "VERSION" = true ∧
        ((∃ d, envLiveOk.dns = .ok d ∧ d.length ≠ 1) ∨
          ((∃ txt st, getTxtCallback envLiveOk.dns = .resolve txt ∧
              validateTxtServer txt = .resolve st) ∧
            envLiveOk.destroyedAtStage3 = false ∧
            ∃ m, getPolicyCb envLiveOk.http = .fault m)))) :=
  dispatcher_reply_discipline_amended envLiveOk "VERSION" rfl

/-- Claim C4 (code_bug evaluation): the claim's two examples hold on
src/server.js's `validateTxt` -- the record `v=STSv1; id=2019ABC` validates
with the version confirmed and id `2019ABC`, and `id=xyz` is rejected with
`INVALID TXT RR` -- but the claimed `INVALID TXT RR` failure for a missing
version does not hold in general: a record containing a token without `=`
named `v` makes the stage throw a TypeError (the unfinished
`if (nv.length !== 2) { }` guard skips nothing), so the rejection carries
the engine's message instead. -/
theorem validateTxt_examples_and_fault :
    validateTxtServer [["v=STSv1; id=2019ABC"]] = .resolve ⟨true, true, some "2019ABC"⟩ ∧
    validateTxtServer [["id=xyz"]] = .reject "INVALID TXT RR" ∧
    validateTxtServer [["v;id=x"]]
      = .fault "Cannot read properties of undefined (reading 'toLowerCase')" :=
  ⟨by decide, by decide, by decide⟩

/-- Claim C5 (code_bug evaluation): when the connection is already destroyed
as Stage 3 begins, no HTTP request is issued -- but the stage does not
reject with `CLIENT CONNECTION CLOSED`: evaluating `new ERROR(...)` throws
`ReferenceError: ERROR is not defined`, and that message is what the
promise chain propagates. -/
theorem getPolicy_destroyed_reference_error (out : HttpOutcome) :
    getPolicyStage true out = ⟨false, .fault "ERROR is not defined"⟩ ∧
    (getPolicyStage true out).result ≠ .reject "CLIENT CONNECTION CLOSED" ∧
    (getPolicyStage true out).httpCalled = false := by
  have h : getPolicyStage true out = ⟨false, .fault "ERROR is not defined"⟩ := rfl
  exact ⟨h, by rw [h]; decide, by rw [h]⟩

/-- Claim C7 (code_bug evaluation): in src/server.js a token without `=` is
not skipped silently.  A bare `v` token throws a TypeError (its value is
`undefined`), and a bare `id` token sets the `id` property (to `undefined`),
so `id;v=STSv1` validates successfully with `idSet` true and no value --
contradicting the claim that such tokens never set the id value. -/
theorem validateTxt_no_eq_token_fault :
    validateTxtServer [["v"]]
      = .fault "Cannot read properties of undefined (reading 'toLowerCase')" ∧
    validateTxtServer [["id;v=STSv1"]] = .resolve ⟨true, true, none⟩ :=
  ⟨by decide, by decide⟩

/-- Claim C9 counterexample: the claim says the success writer appends CRLF
when the payload does not end with it.  For the body `abc` the success
handler writes exactly `abc`: `lib.send` forwards its argument verbatim
(its contract assumes CRLF is already present), so the written reply is not
the body followed by CRLF. -/
theorem send_no_crlf_counterexample :
    deliverSuccess false "abc" = ["abc"] ∧ ("abc" : String) ≠ "abc" ++ "\r\n" :=
  ⟨rfl, by decide⟩

/-- Claim C9 (corrected): on a live connection the raw HTTP body is
forwarded unmodified as the entire success reply -- nothing is prepended or
appended by `lib.send`, so the reply ends with CRLF only when the body
itself already does. -/
theorem send_verbatim_amended (b : String) :
    deliverSuccess false b = [b] ∧ send (some ⟨false⟩) b = [b] :=
  ⟨rfl, rfl⟩

/-- Claim C10 (confirmed): on a live connection `sendError` with an absent
or empty (falsy) message writes the default line `-error` followed by CRLF,
and with a null connection it writes nothing and raises no fault. -/
theorem sendError_default_and_null (c : Conn) (h : c.destroyed = false) :
    sendError (some c) none = ["-error\r\n"] ∧
    sendError (some c) (some "") = ["-error\r\n"] ∧
    (∀ m, sendError none m = []) := by
  refine ⟨?_, ?_, fun m => rfl⟩ <;> simp [sendError, orError, h]

/-- Claim C6 counterexample: the claim says an absent or empty body is
treated as the empty string rather than an error.  In src/server.js an empty
body with no transport error and a 200 response enters the failure branch
(`_.isEmpty(body)`), where evaluating `err.message` on the null error throws
a TypeError -- the stage does not resolve with the empty string. -/
theorem getPolicy_empty_body_counterexample :
    getPolicyCb (.ok (some ⟨200⟩) (some ""))
      = .fault "Cannot read properties of null (reading 'message')" ∧
    getPolicyCb (.ok (some ⟨200⟩) (some "")) ≠ .resolve "" :=
  ⟨rfl, by decide⟩

/-- Claim C6 (corrected): src/server.js's Stage 3 callback rejects with
`HTTP LOOKUP FAILED` carrying the cause on a transport error and carrying
the status code on a non-2xx status; an empty response or an empty/absent
body also takes the failure branch, where reading `err.message` of the null
error throws a TypeError instead of producing a reply message; success
returns the raw (necessarily non-empty) body. -/
theorem getPolicy_outcomes_amended :
    (∀ e, getPolicyCb (.err e) = .reject ("HTTP LOOKUP FAILED; " ++ e)) ∧
    (∀ body, getPolicyCb (.ok none body)
      = .fault "Cannot read properties of null (reading 'message')") ∧
    (∀ r, getPolicyCb (.ok (some r) none)
      = .fault "Cannot read properties of null (reading 'message')") ∧
    (∀ (r : HttpRes) (b : String), b ≠ "" → (r.statusCode < 200 ∨ 300 ≤ r.statusCode) →
      getPolicyCb (.ok (some r) (some b))
        = .reject ("HTTP LOOKUP FAILED; " ++ toString r.statusCode)) ∧
    (∀ (r : HttpRes) (b : String), b ≠ "" → 200 ≤ r.statusCode → r.statusCode < 300 →
      getPolicyCb (.ok (some r) (some b)) = .resolve b) := by
  refine ⟨fun e => rfl, fun body => ?_, fun r => rfl, ?_, ?_⟩
  · cases body <;> rfl
  · intro r b hb hs
    simp [getPolicyCb, hb, hs]
  · intro r b hb h1 h2
    have hs : ¬(r.statusCode < 200 ∨ 300 ≤ r.statusCode) := by omega
    simp [getPolicyCb, hb, hs]

/-- Witness for `getPolicy_outcomes_amended` at concrete HTTP outcomes. -/
theorem getPolicy_outcomes_amended_witness :
    getPolicyCb (.err "connect ECONNREFUSED")
      = .reject "HTTP LOOKUP FAILED; connect ECONNREFUSED" ∧
    getPolicyCb (.ok none (some "x"))
      = .fault "Cannot read properties of null (reading 'message')" ∧
    getPolicyCb (.ok (some ⟨404⟩) (some "x")) = .reject "HTTP LOOKUP FAILED; 404" ∧
    getPolicyCb (.ok (some ⟨200⟩) (some "policy body")) = .resolve "policy body" :=
  ⟨getPolicy_outcomes_amended.1 "connect ECONNREFUSED",
   getPolicy_outcomes_amended.2.1 (some "x"),
   getPolicy_outcomes_amended.2.2.2.1 ⟨404⟩ "x" (by decide) (by decide),
   getPolicy_outcomes_amended.2.2.2.2 ⟨200⟩ "policy body" (by decide) (by decide) (by decide)⟩

/-- Splitting on a separator is never empty-resulted. -/
theorem splitChars_ne_nil (sep : Char) (l : List Char) : splitChars sep l ≠ [] := by
  cases l with
  | nil => simp [splitChars]
  | cons c cs =>
    simp only [splitChars]
    split <;> simp

/-- A separator-free field followed by a separator splits off as the first
field. -/
theorem splitChars_append (sep : Char) (p rest : List Char) (h : sep ∉ p) :
    splitChars sep (p ++ sep :: rest) = p :: splitChars sep rest := by
  induction p with
  | nil => simp [splitChars]
  | cons c p ih =>
    have hc : ¬(c = sep) := fun e => h (by simp [e])
    have hp : sep ∉ p := fun m => h (List.mem_cons_of_mem _ m)
    simp [splitChars, hc, ih hp]

/-- A separator-free list splits to itself as the only field. -/
theorem splitChars_no_sep (sep : Char) (p : List Char) (h : sep ∉ p) :
    splitChars sep p = [p] := by
  induction p with
  | nil => rfl
  | cons c p ih =>
    have hc : ¬(c = sep) := fun e => h (by simp [e])
    have hp : sep ∉ p := fun m => h (List.mem_cons_of_mem _ m)
    simp [splitChars, hc, ih hp]

/-- `splitChars` inverts `interChars` on separator-free fields. -/
theorem splitChars_interChars (sep : Char) (parts : List (List Char))
    (hne : parts ≠ []) (h : ∀ p ∈ parts, sep ∉ p) :
    splitChars sep (interChars sep parts) = parts := by
  induction parts with
  | nil => exact absurd rfl hne
  | cons p ps ih =>
    cases ps with
    | nil => exact splitChars_no_sep sep p (h p (by simp))
    | cons q qs =>
      rw [interChars, splitChars_append sep p _ (h p (by simp)),
        ih (by simp) (fun x hx => h x (List.mem_cons_of_mem _ hx))]

/-- Structure eta: rebuilding a string from its characters is the identity. -/
theorem strMk_data (s : String) : String.mk s.data = s := rfl

/-- `splitStr` on `=` recovers the `=`-free parts of a joined token. -/
theorem splitStr_joinEqParts (parts : List String) (hne : parts ≠ [])
    (h : ∀ p ∈ parts, '=' ∉ p.data) :
    splitStr '=' (joinEqParts parts) = parts := by
  unfold splitStr joinEqParts
  rw [strMk_data, splitChars_interChars '=' (parts.map String.data)
    (by simpa using hne) (by simpa using h)]
  simp [List.map_map]
  exact List.map_id'' (fun s => strMk_data s) parts

/-- Claim C8 counterexample: the claim says the token `id=a=b` stores the id
value `a=b`.  In the part_002 variant the re-joined value is
`nv.slice(1).join('')`, which concatenates the parts with the `=` separators
removed: the stored value is `ab`, and a whole record containing that token
validates with id `ab`, not `a=b`. -/
theorem rejoin_drops_eq_counterexample :
    validateTxtV2 [["v=STSv1;id=a=b"]] = .resolve ⟨true, true, some "ab"⟩ ∧
    stepV2 ⟨false, false, none⟩ "id=a=b" = ⟨false, true, some "ab"⟩ ∧
    (some "ab" : Option String) ≠ some "a=b" :=
  ⟨by decide, by decide, by decide⟩

/-- Claim C8 (corrected): for an attribute token `name=v1=...=vn` built from
`=`-free parts, the part_002 parser stores as the value the concatenation of
the parts after the name with the `=` separators dropped (for an `id` token,
`idVal` becomes the plain concatenation of the value parts). -/
theorem rejoin_concatenation_amended (st : StsOpts) (name v1 : String)
    (vs : List String) (hn : '=' ∉ name.data) (h1 : '=' ∉ v1.data)
    (hvs : ∀ v ∈ vs, '=' ∉ v.data) (hid : jsToLower name = "id") :
    stepV2 st (joinEqParts (name :: v1 :: vs))
      = { st with idSet := true, idVal := some (strJoin (v1 :: vs)) } := by
  have hsplit : splitStr '=' (joinEqParts (name :: v1 :: vs)) = name :: v1 :: vs := by
    refine splitStr_joinEqParts _ (by simp) ?_
    intro p hp
    simp only [List.mem_cons] at hp
    rcases hp with rfl | rfl | h
    · exact hn
    · exact h1
    · exact hvs _ h
  simp [stepV2, hsplit, hid]

/-- Witness for `rejoin_concatenation_amended` at the token `id=x=y`. -/
theorem rejoin_concatenation_witness :
    stepV2 ⟨true, false, none⟩ (joinEqParts ["id", "x", "y"]) = ⟨true, true, some "xy"⟩ :=
  rejoin_concatenation_amended ⟨true, false, none⟩ "id" "x" ["y"]
    (by decide) (by decide) (by decide) rfl

/-- Witness for `sendError_default_and_null` on a live connection. -/
theorem sendError_default_and_null_witness :
    sendError (some ⟨false⟩) none = ["-error\r\n"] ∧
    sendError (some ⟨false⟩) (some "") = ["-error\r\n"] ∧
    (∀ m, sendError none m = []) :=
  sendError_default_and_null ⟨false⟩ rfl

end STSGet
